import Mathlib

/-!
# Verification of the ndastro computation engine

Shallow embedding, in Lean 4, of the astrological computation core of the
`ndastro-ui` repository: degree normalization, the rasi/house/nakshatra/pada
position transformer, the ascendant calculation, the retrograde interval
search, and the dasha (planetary period) lookup.

Python floats are modelled by exact rationals (`ℚ`); Python `int` by `ℤ`.
External collaborators (the skyfield ephemeris, `find_discrete`, Python's
trigonometric primitives) are modelled as oracles: abstract inputs whose
documented contract is stated as hypotheses.  Python exceptions are modelled
by `Option`/`Except` return types; a constructor raising `ValueError` on an
out-of-range argument (`Rasis(v)`, `Houses(v)`, `Natchaththirams(v)`)
becomes a range-checked partial conversion.
-/

namespace NDAstro

/-! ## Angle primitives (`ndastro/libs/utils.py`)

`normalize_degree` from the source:

```python
def normalize_degree(degree: float) -> float:
    if degree < 0:
        return DEGREE_MAX + degree      # DEGREE_MAX = 360
    while degree > DEGREE_MAX:
        degree -= DEGREE_MAX
    return degree
```

The `while` loop is `normLoop`; the `if` branch is in `normalize_degree`.
-/

/-- The `while degree > 360: degree -= 360` loop of `normalize_degree`. -/
def normLoop (d : ℚ) : ℚ :=
  if d > 360 then normLoop (d - 360) else d
termination_by (⌈d / 360⌉).toNat
decreasing_by
  have h360 : (1 : ℚ) < d / 360 := by
    rw [lt_div_iff (by norm_num : (0:ℚ) < 360)]
    simpa using ‹d > 360›
  have hceil : (1 : ℤ) < ⌈d / 360⌉ := by
    exact_mod_cast Int.lt_ceil.mpr (by exact_mod_cast h360)
  have hsub : ⌈(d - 360) / 360⌉ = ⌈d / 360⌉ - 1 := by
    rw [sub_div, div_self (by norm_num : (360:ℚ) ≠ 0)]
    exact_mod_cast Int.ceil_sub_int (d / 360) 1
  rw [hsub]
  omega

/-- `normalize_degree` from `ndastro/libs/utils.py`. -/
def normalize_degree (degree : ℚ) : ℚ :=
  if degree < 0 then 360 + degree else normLoop degree

lemma normLoop_of_le {d : ℚ} (h : ¬ d > 360) : normLoop d = d := by
  rw [normLoop, if_neg h]

lemma normLoop_bounds : ∀ n : ℕ, ∀ d : ℚ, (⌈d / 360⌉).toNat ≤ n → 0 ≤ d →
    0 ≤ normLoop d ∧ normLoop d ≤ 360 := by
  intro n
  induction n with
  | zero =>
    intro d hn hd
    have : ¬ d > 360 := by
      intro hgt
      have h360 : (1 : ℚ) < d / 360 := by
        rw [lt_div_iff (by norm_num : (0:ℚ) < 360)]
        simpa using hgt
      have hceil : (1 : ℤ) < ⌈d / 360⌉ := Int.lt_ceil.mpr (by exact_mod_cast h360)
      omega
    rw [normLoop_of_le this]
    exact ⟨hd, by linarith [not_lt.mp this]⟩
  | succ n ih =>
    intro d hn hd
    by_cases hgt : d > 360
    · have h360 : (1 : ℚ) < d / 360 := by
        rw [lt_div_iff (by norm_num : (0:ℚ) < 360)]
        simpa using hgt
      have hceil : (1 : ℤ) < ⌈d / 360⌉ := Int.lt_ceil.mpr (by exact_mod_cast h360)
      have hsub : ⌈(d - 360) / 360⌉ = ⌈d / 360⌉ - 1 := by
        rw [sub_div, div_self (by norm_num : (360:ℚ) ≠ 0)]
        exact_mod_cast Int.ceil_sub_int (d / 360) 1
      have hmeas : (⌈(d - 360) / 360⌉).toNat ≤ n := by
        rw [hsub]; omega
      rw [normLoop, if_pos hgt]
      exact ih (d - 360) hmeas (by linarith)
    · rw [normLoop_of_le hgt]
      exact ⟨hd, by linarith [not_lt.mp hgt]⟩

lemma normLoop_nonneg {d : ℚ} (hd : 0 ≤ d) : 0 ≤ normLoop d :=
  (normLoop_bounds (⌈d / 360⌉).toNat d le_rfl hd).1

lemma normLoop_le {d : ℚ} (hd : 0 ≤ d) : normLoop d ≤ 360 :=
  (normLoop_bounds (⌈d / 360⌉).toNat d le_rfl hd).2

/-! ## Planets and dasha systems (`ndastro/libs/planet_enum.py`,
`ndastro/gui/models/dasha_detail.py`, `ndastro/libs/dasha_systems.py`) -/

/-- The `Planets` enum. -/
inductive Planets where
  | empty | ascendant | sun | moon | mars | mercury | jupiter | venus | saturn
  | rahu | kethu
  deriving DecidableEq

/-- `Planets.code`: ephemeris code strings from `planet_enum.py`. -/
def Planets.code : Planets → String
  | .empty => "empty"
  | .ascendant => "ascendant"
  | .sun => "sun"
  | .moon => "moon"
  | .mars => "mars barycenter"
  | .mercury => "mercury"
  | .jupiter => "jupiter barycenter"
  | .venus => "venus"
  | .saturn => "saturn barycenter"
  | .rahu => "rahu"
  | .kethu => "kethu"

/-- The `Dashas` enum: the three registered dasha systems. -/
inductive Dashas where
  | vimshottari | ashtottari | kalachakra
  deriving DecidableEq

/-- The exceptions `find_running_dasha` can raise (`custom_errors.py`).
The repository defines no `DomainError`. -/
inductive DashaError where
  | unsupportedDashaSystem | missingPlanetsPeriod | unableToDetermineDasha
  deriving DecidableEq

/-- `DashaDetail`: cycle length in years and the ordered planet→years table
(Python dicts preserve insertion order). -/
structure DashaDetail where
  cycle_years : ℤ
  planets_period : List (Planets × ℤ)
  deriving DecidableEq

/-- The `get_*_details` tables of `DashaSystem`, keyed by system. -/
def dasha_details : Dashas → DashaDetail
  | .vimshottari =>
    ⟨120, [(.kethu, 7), (.venus, 20), (.sun, 6), (.moon, 10), (.mars, 7),
           (.rahu, 18), (.jupiter, 16), (.saturn, 19), (.mercury, 17)]⟩
  | .ashtottari =>
    ⟨108, [(.kethu, 7), (.venus, 20), (.sun, 6), (.moon, 10), (.mars, 7),
           (.rahu, 18), (.jupiter, 16), (.saturn, 19), (.mercury, 5)]⟩
  | .kalachakra =>
    ⟨28, [(.moon, 1), (.mars, 2), (.mercury, 3), (.venus, 4), (.jupiter, 5),
          (.sun, 6), (.saturn, 7)]⟩

/-- The accumulation loop of `find_running_dasha`:

```python
elapsed_days = 0
for planet, period_years in dasha_details.planets_period.items():
    period_days = period_years * 365
    if elapsed_days + period_days > position_in_cycle:
        return planet
    elapsed_days += period_days
raise UnableToDetermineDashaError
``` -/
def dashaWalk : List (Planets × ℤ) → ℤ → ℤ → Except DashaError Planets
  | [], _, _ => .error .unableToDetermineDasha
  | (planet, period_years) :: rest, elapsed_days, position =>
    if elapsed_days + period_years * 365 > position then .ok planet
    else dashaWalk rest (elapsed_days + period_years * 365) position

/-- `find_running_dasha` from `ndastro/libs/dasha_systems.py`.  Instants are
rational day-stamps; `(current - birth).days` is the floor of the difference
(Python `timedelta.days` floors), and Python's `%` with a positive modulus is
`Int.emod`. -/
def find_running_dasha (birth_datetime current_datetime : ℚ) (dasha_system : Dashas) :
    Except DashaError Planets :=
  if (dasha_details dasha_system).planets_period = [] then
    .error .missingPlanetsPeriod
  else
    dashaWalk (dasha_details dasha_system).planets_period 0
      (⌊current_datetime - birth_datetime⌋ % ((dasha_details dasha_system).cycle_years * 365))

/-- `cycleDays` of a system: cycle years × 365 (fixed 365-day year). -/
def cycleDays (s : Dashas) : ℤ := (dasha_details s).cycle_years * 365

/-- Proleptic-Gregorian day number of a civil date, modelling Python's
`datetime.date` ordinal arithmetic (an external standard-library facility);
only differences of day numbers are used. -/
def days_from_civil (y m d : ℤ) : ℤ :=
  let yy := if m ≤ 2 then y - 1 else y
  let era := Int.fdiv yy 400
  let yoe := yy - era * 400
  let mp := (m + 9) % 12
  let doy := Int.fdiv (153 * mp + 2) 5 + d - 1
  let doe := yoe * 365 + Int.fdiv yoe 4 - Int.fdiv yoe 100 + doy
  era * 146097 + doe

lemma floor_intCast_sub (a b : ℤ) : ⌊(b : ℚ) - (a : ℚ)⌋ = b - a := by
  rw [← Int.cast_sub, Int.floor_intCast]

/-! ## Position transformer (`ndastro/libs/utils.py`)

`normalize_rasi_house` from the source:

```python
def normalize_rasi_house(position: int) -> int:
    if position < 0:
        return TOTAL_RAASI + position       # TOTAL_RAASI = 12
    while position > TOTAL_RAASI:
        position -= TOTAL_RAASI
    return position
```

The enum constructors `Rasis(v)` (values 1–12), `Houses(v)` (1–12) and
`Natchaththirams(v)` (1–27) raise `ValueError` outside their value range;
they are modelled as range-checked conversions returning `Option`. -/

/-- The `while position > 12: position -= 12` loop of `normalize_rasi_house`. -/
def nrhLoop (position : ℤ) : ℤ :=
  if position > 12 then nrhLoop (position - 12) else position
termination_by position.toNat
decreasing_by omega

/-- `normalize_rasi_house` from `ndastro/libs/utils.py`. -/
def normalize_rasi_house (position : ℤ) : ℤ :=
  if position < 0 then 12 + position else nrhLoop position

/-- `Rasis(v)`: valid values 1–12, otherwise `ValueError`. -/
def rasis_ofInt (v : ℤ) : Option ℤ := if 1 ≤ v ∧ v ≤ 12 then some v else none

/-- `Houses(v)`: valid values 1–12, otherwise `ValueError`. -/
def houses_ofInt (v : ℤ) : Option ℤ := if 1 ≤ v ∧ v ≤ 12 then some v else none

/-- `Natchaththirams(v)`: valid values 1–27, otherwise `ValueError`. -/
def natch_ofInt (v : ℤ) : Option ℤ := if 1 ≤ v ∧ v ≤ 27 then some v else none

/-- `get_nakshatra_and_pada` from `ndastro/libs/utils.py`.
`Angle.arcminutes()` is degrees × 60; `DEGREE_MAX / TOTAL_NAKSHATRAS`
is 360/27. -/
def get_nakshatra_and_pada (longitude : ℚ) : Option (ℤ × ℤ) :=
  let degrees_per_nakshatra : ℚ := 360 / 27
  let total_degrees_mins : ℚ := longitude * 60
  let nakshatra_index : ℚ := total_degrees_mins / (degrees_per_nakshatra * 60)
  let remainder : ℚ := nakshatra_index - ⌊nakshatra_index⌋
  let pada : ℤ :=
    if remainder < 1/4 then 1
    else if remainder < 1/2 then 2
    else if remainder < 3/4 then 3
    else 4
  (natch_ofInt ⌈if nakshatra_index = 0 then nakshatra_index + 1 else nakshatra_index⌉).map
    (fun nakshatra => (nakshatra, pada))

/-- The fields of a `PlanetDetail` set by the enrichment loop of
`get_sidereal_planet_positions` (the retrograde flag, which needs the
search oracle, is modelled separately by `retro_flag`). -/
structure EnrichedPos where
  rasi_occupied : ℤ
  house_posited_at : ℤ
  natchaththiram : ℤ
  paatham : ℤ
  advanced_by : ℚ
  deriving DecidableEq

/-- The per-planet body of the enrichment loop in
`get_sidereal_planet_positions` (`utils.py` lines 208–224):

```python
asc = normalize_degree(pos.longitude.degrees - ayanamsa)
asc_h, asc_adv_by = divmod(asc, DEGREES_PER_RAASI)        # 30
rasi_num = int(asc_h)
pos.rasi_occupied = Rasis(normalize_rasi_house(rasi_num if asc_adv_by == 0 else int(rasi_num + 1)))
pos.house_posited_at = normalize_rasi_house(
    asc_pos.house_posited_at + Houses(rasi_num + 1 if rasi_num == 0 else rasi_num))
pos.advanced_by = Angle(degrees=asc_adv_by)
nakshatra, pada = get_nakshatra_and_pada(Angle(degrees=asc))
```

`divmod(asc, 30)` gives quotient `⌊asc/30⌋` and remainder `asc − 30⌊asc/30⌋`;
`asc_house` is the ascendant's `house_posited_at` (always `HOUSE1 = 1`). -/
def enrich_planet (asc_house : ℤ) (tropical_longitude ayanamsa : ℚ) : Option EnrichedPos :=
  let asc := normalize_degree (tropical_longitude - ayanamsa)
  let rasi_num : ℤ := ⌊asc / 30⌋
  let asc_adv_by : ℚ := asc - 30 * rasi_num
  do
    let rasi ← rasis_ofInt (normalize_rasi_house (if asc_adv_by = 0 then rasi_num else rasi_num + 1))
    let house_arg ← houses_ofInt (if rasi_num = 0 then rasi_num + 1 else rasi_num)
    let np ← get_nakshatra_and_pada asc
    pure ⟨rasi, normalize_rasi_house (asc_house + house_arg), np.1, np.2, asc_adv_by⟩

/-- The spec's nakshatra-index formula (§4.2), stated from the spec's words
for comparison with the code: ceil of (sidereal longitude in arcminutes /
arcminutes per nakshatra), with sidereal = 0 mapped to index 1. -/
def specNakshatraIndex (L : ℚ) : ℤ :=
  if L = 0 then 1 else ⌈L * 60 / (360 / 27 * 60)⌉

/-- The spec's pada formula (§4.2), stated from the spec's words: the
quartile of the fractional nakshatra position. -/
def specPada (L : ℚ) : ℤ :=
  let x : ℚ := L * 60 / (360 / 27 * 60)
  if x - ⌊x⌋ < 1/4 then 1
  else if x - ⌊x⌋ < 1/2 then 2
  else if x - ⌊x⌋ < 3/4 then 3
  else 4

lemma nrhLoop_of_le {p : ℤ} (h : ¬ p > 12) : nrhLoop p = p := by
  rw [nrhLoop, if_neg h]

lemma normalize_rasi_house_of_le {v : ℤ} (h0 : ¬ v < 0) (h12 : ¬ v > 12) :
    normalize_rasi_house v = v := by
  rw [normalize_rasi_house, if_neg h0, nrhLoop_of_le h12]

lemma normalize_degree_small {d : ℚ} (h0 : ¬ d < 0) (h360 : ¬ d > 360) :
    normalize_degree d = d := by
  rw [normalize_degree, if_neg h0, normLoop_of_le h360]

lemma get_nakshatra_and_pada_eq_spec (L : ℚ) (h0 : 0 ≤ L) (h360 : L < 360) :
    get_nakshatra_and_pada L = some (specNakshatraIndex L, specPada L) := by
  by_cases hL : L = 0
  · subst hL
    simp only [get_nakshatra_and_pada, specNakshatraIndex, specPada, natch_ofInt]
    rw [show (0 : ℚ) * 60 / (360 / 27 * 60) = 0 by norm_num]
    rw [if_pos rfl, show ⌈(0 : ℚ) + 1⌉ = 1 by rw [Int.ceil_eq_iff] <;> norm_num]
    norm_num
  · have hpos : 0 < L := lt_of_le_of_ne h0 (Ne.symm hL)
    have hxv : L * 60 / (360 / 27 * 60) = 3 * L / 40 := by ring
    have hx : L * 60 / (360 / 27 * 60) ≠ 0 := by
      rw [hxv]; positivity
    have hxpos : 0 < L * 60 / (360 / 27 * 60) := by rw [hxv]; positivity
    have hxlt : L * 60 / (360 / 27 * 60) ≤ ((27 : ℤ) : ℚ) := by
      rw [hxv]
      rw [div_le_iff (by norm_num : (0:ℚ) < 40)]
      push_cast
      linarith
    have hceil1 : 1 ≤ ⌈L * 60 / (360 / 27 * 60)⌉ := by
      have := Int.ceil_pos.mpr hxpos
      omega
    have hceil27 : ⌈L * 60 / (360 / 27 * 60)⌉ ≤ 27 := Int.ceil_le.mpr hxlt
    simp only [get_nakshatra_and_pada, specNakshatraIndex, specPada, natch_ofInt,
      if_neg hx, if_neg hL, if_pos (And.intro hceil1 hceil27), Option.map_some']
structure AscPos where
  rasi_occupied : ℤ
  house_posited_at : ℤ
  advanced_by : ℚ
  natchaththiram : ℤ
  paatham : ℤ
  is_asc : Bool
  retrograde : Bool
  deriving DecidableEq

/-- `get_sidereal_ascendant_position` from `ndastro/libs/utils.py`
(lines 266–304), taking the tropical ascendant angle as input:

```python
asc = normalize_degree(ascr.degrees - ayanamsa)
asc_h, asc_adv_by = divmod(asc, 29.99972222)
rasi_num = int(asc_h)
rasi_occupied = Rasis(normalize_rasi_house(rasi_num if asc_adv_by == 0 else int(rasi_num + 1)))
posited_at = Houses.HOUSE1
nakshatra, pada = get_nakshatra_and_pada(Angle(degrees=asc))
```

The `PlanetDetail` it returns has `is_ascendant=True` and the dataclass
default `retrograde=False`. -/
def get_sidereal_ascendant_position (tropical_ascendant ayanamsa : ℚ) : Option AscPos :=
  let asc := normalize_degree (tropical_ascendant - ayanamsa)
  let rasi_num : ℤ := ⌊asc / (2999972222 / 100000000 : ℚ)⌋
  let asc_adv_by : ℚ := asc - (2999972222 / 100000000 : ℚ) * rasi_num
  do
    let rasi ← rasis_ofInt (normalize_rasi_house (if asc_adv_by = 0 then rasi_num else rasi_num + 1))
    let np ← get_nakshatra_and_pada asc
    pure ⟨rasi, 1, asc_adv_by, np.1, np.2, true, false⟩

lemma dashaWalk_ok : ∀ (pp : List (Planets × ℤ)) (elapsed_days position : ℤ),
    elapsed_days ≤ position →
    position < elapsed_days + (pp.map (fun x => x.2 * 365)).sum →
    ∃ p, dashaWalk pp elapsed_days position = .ok p := by
  intro pp
  induction pp with
  | nil =>
    intro e pos h1 h2
    simp only [List.map_nil, List.sum_nil, add_zero] at h2
    omega
  | cons hd tl ih =>
    intro e pos h1 h2
    obtain ⟨planet, period_years⟩ := hd
    rw [dashaWalk]
    by_cases hcase : e + period_years * 365 > pos
    · exact ⟨planet, by rw [if_pos hcase]⟩
    · rw [if_neg hcase]
      refine ih (e + period_years * 365) pos (by omega) ?_
      simp only [List.map_cons, List.sum_cons] at h2
      omega

/-! ## Retrograde detector (`ndastro/libs/retrograde.py`)

The apparent ecliptic longitude of the observed body is an external
ephemeris signal, modelled as an abstract function `lon : ℚ → ℚ` of time
(in days).  skyfield's `find_discrete` is likewise external; its output —
the direction-change instants of the window paired with the new value of
the retrograde test after each change — is modelled as an event list
`events : List (ℚ × Bool)`, and its documented contract enters the theorems
as hypotheses. -/

/-- `RetrogradeFunction.__call__`: the two-sample test — retrograde iff the
ecliptic longitude decreased over the preceding day. -/
def retrograde_function (lon : ℚ → ℚ) (t : ℚ) : Bool :=
  decide (lon t < lon (t - 1))

/-- The interval-building loop of `find_retrograde_periods`:

```python
retrograde_periods = []
in_retrograde = False
retro_start = None
for t, retro in zip(times, values):
    if retro:
        if not in_retrograde:
            retro_start = t
            in_retrograde = True
    elif in_retrograde:
        retrograde_periods.append((retro_start, t))
        in_retrograde = False
if in_retrograde:
    retrograde_periods.append((retro_start, t1))
```

The pair of state variables is modelled by an `Option ℚ`:
`some retro_start` when `in_retrograde` is set, `none` otherwise (the
Python code establishes `retro_start is not None` whenever `in_retrograde`
holds). -/
def rpGo (t1 : ℚ) : List (ℚ × Bool) → Option ℚ → List (ℚ × ℚ) → List (ℚ × ℚ)
  | [], none, acc => acc
  | [], some retro_start, acc => acc ++ [(retro_start, t1)]
  | (t, retro) :: rest, none, acc =>
    if retro then rpGo t1 rest (some t) acc else rpGo t1 rest none acc
  | (t, retro) :: rest, some retro_start, acc =>
    if retro then rpGo t1 rest (some retro_start) acc
    else rpGo t1 rest none (acc ++ [(retro_start, t)])

/-- `find_retrograde_periods` as a function of the `find_discrete` event
list for the window ending at `t1`. -/
def find_retrograde_periods (t1 : ℚ) (events : List (ℚ × Bool)) : List (ℚ × ℚ) :=
  rpGo t1 events none []

/-- The membership test
`any(period_start <= check_date <= period_end for ...)`. -/
def inAnyPeriod (periods : List (ℚ × ℚ)) (check_date : ℚ) : Bool :=
  periods.any fun p => decide (p.1 ≤ check_date) && decide (check_date ≤ p.2)

/-- `is_planet_in_retrograde` from `ndastro/libs/retrograde.py`: planets not
in the short-circuit list search the window `check_date ± 365` days and test
interval membership; Sun, Moon, the ascendant and the empty placeholder are
answered `False` without searching. -/
def is_planet_in_retrograde (check_date : ℚ) (planet_name : String)
    (events : List (ℚ × Bool)) : Bool :=
  if planet_name ∉ ["sun", "moon", "ascendant", "empty"] then
    inAnyPeriod (find_retrograde_periods (check_date + 365) events) check_date
  else
    false

/-- The retrograde-flag assignment in the enrichment loop of
`get_sidereal_planet_positions` (`utils.py` lines 226–228):
`True if pos.planet.code in [RAHU.code, KETHU.code]
 else is_planet_in_retrograde(...)`. -/
def retro_flag (planet : Planets) (check_date : ℚ) (events : List (ℚ × Bool)) : Bool :=
  if planet.code ∈ [Planets.rahu.code, Planets.kethu.code] then true
  else is_planet_in_retrograde check_date planet.code events

lemma rpGo_append_acc (t1 : ℚ) :
    ∀ (events : List (ℚ × Bool)) (st : Option ℚ) (acc : List (ℚ × ℚ)),
      rpGo t1 events st acc = acc ++ rpGo t1 events st [] := by
  intro events
  induction events with
  | nil => intro st acc; cases st <;> simp [rpGo]
  | cons e rest ih =>
    intro st acc
    obtain ⟨t, retro⟩ := e
    cases st with
    | none =>
      cases retro <;> simp only [rpGo, if_true, if_false, Bool.false_eq_true] <;> rw [ih]
    | some s =>
      cases retro with
      | false =>
        simp only [rpGo, if_false, Bool.false_eq_true]
        rw [ih none (acc ++ [(s, t)]), ih none ([] ++ [(s, t)])]
        simp [List.append_assoc]
      | true =>
        simp only [rpGo, if_true]
        rw [ih]

lemma inAnyPeriod_append (l₁ l₂ : List (ℚ × ℚ)) (X : ℚ) :
    inAnyPeriod (l₁ ++ l₂) X = (inAnyPeriod l₁ X || inAnyPeriod l₂ X) := by
  simp [inAnyPeriod, List.any_append]

lemma rpGo_tail_true (X t1 : ℚ) (hXt1 : X ≤ t1) :
    ∀ (l2 : List (ℚ × Bool)) (s : ℚ), s ≤ X → (∀ te ∈ l2, X ≤ te.1) →
      inAnyPeriod (rpGo t1 l2 (some s) []) X = true := by
  intro l2
  induction l2 with
  | nil =>
    intro s hs _
    simp [rpGo, inAnyPeriod, hs, hXt1]
  | cons e rest ih =>
    intro s hs hall
    obtain ⟨t, retro⟩ := e
    have ht : X ≤ t := hall (t, retro) (by simp)
    cases retro with
    | true =>
      simp only [rpGo, if_true]
      exact ih s hs fun te h => hall te (by simp [h])
    | false =>
      simp only [rpGo, if_false, Bool.false_eq_true]
      rw [rpGo_append_acc, inAnyPeriod_append]
      simp [inAnyPeriod, hs, ht]

lemma rpGo_tail_false (X t1 : ℚ) :
    ∀ (l2 : List (ℚ × Bool)) (st : Option ℚ),
      (∀ s, st = some s → X < s) → (∀ te ∈ l2, X < te.1) →
      inAnyPeriod (rpGo t1 l2 st []) X = false := by
  intro l2
  induction l2 with
  | nil =>
    intro st hst _
    cases st with
    | none => simp [rpGo, inAnyPeriod]
    | some s =>
      have := hst s rfl
      simp [rpGo, inAnyPeriod, not_le.mpr this]
  | cons e rest ih =>
    intro st hst hall
    obtain ⟨t, retro⟩ := e
    have ht : X < t := hall (t, retro) (by simp)
    have hrest : ∀ te ∈ rest, X < te.1 := fun te h => hall te (by simp [h])
    cases st with
    | none =>
      cases retro with
      | true =>
        simp only [rpGo, if_true]
        exact ih (some t) (fun s hs => by cases hs; exact ht) hrest
      | false =>
        simp only [rpGo, if_false, Bool.false_eq_true]
        exact ih none (fun s hs => by cases hs) hrest
    | some s =>
      have hXs := hst s rfl
      cases retro with
      | true =>
        simp only [rpGo, if_true]
        exact ih (some s) (fun s' hs' => by cases hs'; exact hXs) hrest
      | false =>
        simp only [rpGo, if_false, Bool.false_eq_true]
        rw [rpGo_append_acc, inAnyPeriod_append]
        rw [ih none (fun s' hs' => by cases hs') hrest]
        simp [inAnyPeriod, not_le.mpr hXs]

lemma rpGo_segment (X t1 tl : ℚ) (v : Bool) (l2 : List (ℚ × Bool))
    (htl : tl < X) (hXt1 : X ≤ t1) (hl2 : ∀ te ∈ l2, X < te.1) :
    ∀ (l1 : List (ℚ × Bool)) (st : Option ℚ),
      (∀ s, st = some s → s < X) → (∀ te ∈ l1, te.1 < X) →
      inAnyPeriod (rpGo t1 (l1 ++ (tl, v) :: l2) st []) X = v := by
  intro l1
  induction l1 with
  | nil =>
    intro st hst _
    cases st with
    | none =>
      cases v with
      | true =>
        simp only [List.nil_append, rpGo, if_true]
        exact rpGo_tail_true X t1 hXt1 l2 tl (le_of_lt htl) fun te h => le_of_lt (hl2 te h)
      | false =>
        simp only [List.nil_append, rpGo, if_false, Bool.false_eq_true]
        exact rpGo_tail_false X t1 l2 none (fun s hs => by cases hs) hl2
    | some s =>
      have hs := hst s rfl
      cases v with
      | true =>
        simp only [List.nil_append, rpGo, if_true]
        exact rpGo_tail_true X t1 hXt1 l2 s (le_of_lt hs) fun te h => le_of_lt (hl2 te h)
      | false =>
        simp only [List.nil_append, rpGo, if_false, Bool.false_eq_true]
        rw [rpGo_append_acc, inAnyPeriod_append]
        rw [rpGo_tail_false X t1 l2 none (fun s' hs' => by cases hs') hl2]
        simp [inAnyPeriod, not_le.mpr htl]
  | cons e l1' ih =>
    intro st hst hl1
    obtain ⟨t, retro⟩ := e
    have ht : t < X := hl1 (t, retro) (by simp)
    have hl1' : ∀ te ∈ l1', te.1 < X := fun te h => hl1 te (by simp [h])
    cases st with
    | none =>
      cases retro with
      | true =>
        simp only [List.cons_append, rpGo, if_true]
        exact ih (some t) (fun s hs => by cases hs; exact ht) hl1'
      | false =>
        simp only [List.cons_append, rpGo, if_false, Bool.false_eq_true]
        exact ih none (fun s hs => by cases hs) hl1'
    | some s =>
      have hs := hst s rfl
      cases retro with
      | true =>
        simp only [List.cons_append, rpGo, if_true]
        exact ih (some s) (fun s' hs' => by cases hs'; exact hs) hl1'
      | false =>
        simp only [List.cons_append, rpGo, if_false, Bool.false_eq_true]
        rw [rpGo_append_acc, inAnyPeriod_append]
        simp only [List.append_eq]
        rw [ih none (fun s' hs' => by cases hs') hl1']
        simp [inAnyPeriod, not_le.mpr ht]

/-! ## Ascendant calculation (`ndastro/libs/utils.py`, lines 235–263)

Python's `math.sin/cos/tan/atan2/radians/degrees` are floating-point
primitives external to the engine's exact arithmetic; they are modelled as
an oracle record.  `mean_obliquity` (arcseconds) and `t.gmst` come from the
skyfield ephemeris. -/

/-- Oracle record for Python's `math` trigonometric primitives. -/
structure FloatOps where
  radians : ℚ → ℚ
  degrees : ℚ → ℚ
  fsin : ℚ → ℚ
  fcos : ℚ → ℚ
  ftan : ℚ → ℚ
  atan2 : ℚ → ℚ → ℚ

/-- Python's float `%` (sign of the divisor): `x - y·⌊x/y⌋`. -/
def qfmod (x y : ℚ) : ℚ := x - y * ⌊x / y⌋

/-- The spec's `DomainError` (§7).  The repository's source defines no such
exception; the type exists only so that "fails with a `DomainError`" is
statable about the embedded function. -/
inductive DomainError where
  | domainError
  deriving DecidableEq

/-- `get_tropical_ascendant_position` from `ndastro/libs/utils.py`:

```python
oe = mean_obliquity(t.tdb) / 3600
oer = radians(oe)
gmst = t.gmst
lst = (gmst + lon.degrees / 15) % 24
lstr = radians(lst * 15)
ascr = atan2(cos(lstr), -(sin(lstr) * cos(oer) + tan(radians(lat.degrees)) * sin(oer)))
asc = degrees(ascr)
return Angle(degrees=normalize_degree(asc))
```

There is no guard on the latitude (or on anything else) and no `raise`
statement, so the function always returns `Except.ok`. -/
def get_tropical_ascendant_position (ops : FloatOps)
    (gmst oe_arcsec lat lon : ℚ) : Except DomainError ℚ :=
  let oe := oe_arcsec / 3600
  let oer := ops.radians oe
  let lst := qfmod (gmst + lon / 15) 24
  let lstr := ops.radians (lst * 15)
  let ascr := ops.atan2 (ops.fcos lstr)
    (-(ops.fsin lstr * ops.fcos oer + ops.ftan (ops.radians lat) * ops.fsin oer))
  Except.ok (normalize_degree (ops.degrees ascr))

/-- A concrete trigonometric oracle, used to instantiate closed statements. -/
def opsZero : FloatOps :=
  ⟨id, id, fun _ => 0, fun _ => 0, fun _ => 0, fun _ _ => 0⟩

/-- A concrete ephemeris signal: longitude decreasing up to t = 5/2 and
increasing afterwards, continuous at the joint.  Its two-sample test
`lon t < lon (t − 1)` is true exactly for t < 3, so over the window
2 ± 365 days `find_discrete` finds the single direction change (3, false)
and the leading partition interval (window start, 3) — which contains the
window centre X = 2 — is retrograde. -/
def lon_cx (t : ℚ) : ℚ := if t ≤ 5/2 then -t else t - 5

end NDAstro

/-- C5 counterexample: `normalize_degree` maps −400 to −40, which is outside
[0, 360), and applying it twice gives 320 ≠ −40, so neither the claimed
range nor idempotence holds for every real input. -/
theorem c5_normalize_degree_counterexample :
    NDAstro.normalize_degree (-400) = -40 ∧
    ¬ (0 ≤ NDAstro.normalize_degree (-400) ∧ NDAstro.normalize_degree (-400) < 360) ∧
    NDAstro.normalize_degree (NDAstro.normalize_degree (-400)) ≠
      NDAstro.normalize_degree (-400) := by
  have h1 : NDAstro.normalize_degree (-400) = -40 := by
    rw [NDAstro.normalize_degree, if_pos (by norm_num)]; norm_num
  have h2 : NDAstro.normalize_degree (-40) = 320 := by
    rw [NDAstro.normalize_degree, if_pos (by norm_num)]; norm_num
  refine ⟨h1, ?_, ?_⟩
  · rw [h1]; norm_num
  · rw [h1, h2]; norm_num

/-- C5 (amended): for every degree value `d ≥ −360`, `normalize_degree d`
lies in the closed range [0, 360] and `normalize_degree` is idempotent
there.  (The original claim's half-open range [0, 360) fails at exactly 360,
and inputs below −360 are returned negative, breaking both parts.) -/
theorem c5_normalize_degree_range_idem (d : ℚ) (h : -360 ≤ d) :
    0 ≤ NDAstro.normalize_degree d ∧ NDAstro.normalize_degree d ≤ 360 ∧
    NDAstro.normalize_degree (NDAstro.normalize_degree d) =
      NDAstro.normalize_degree d := by
  by_cases hneg : d < 0
  · rw [NDAstro.normalize_degree, if_pos hneg]
    refine ⟨by linarith, by linarith, ?_⟩
    rw [NDAstro.normalize_degree, if_neg (by linarith), NDAstro.normLoop_of_le (by linarith)]
  · rw [NDAstro.normalize_degree, if_neg hneg]
    push_neg at hneg
    refine ⟨NDAstro.normLoop_nonneg hneg, NDAstro.normLoop_le hneg, ?_⟩
    rw [NDAstro.normalize_degree, if_neg (not_lt.mpr (NDAstro.normLoop_nonneg hneg)),
      NDAstro.normLoop_of_le (not_lt.mpr (NDAstro.normLoop_le hneg))]

/-- C5 witness: the amended statement instantiated at −40. -/
theorem c5_normalize_degree_witness :
    (-360 : ℚ) ≤ -40 ∧
    (0 ≤ NDAstro.normalize_degree (-40) ∧ NDAstro.normalize_degree (-40) ≤ 360 ∧
      NDAstro.normalize_degree (NDAstro.normalize_degree (-40)) =
        NDAstro.normalize_degree (-40)) :=
  ⟨by norm_num, c5_normalize_degree_range_idem (-40) (by norm_num)⟩

/-- C3: `find_running_dasha(1990-01-01 UTC, 2020-01-01 UTC, Vimshottari)`
evaluated on the code returns Sun, not the Mercury asserted by the spec and
by the repository's own test `test_find_running_dasha_vimshottari`: the
elapsed 10957 days fall inside Sun's cumulative interval [9855, 12045) of
the Kethu-first 365-day-year walk. -/
theorem c3_vimshottari_scenario_eval :
    NDAstro.days_from_civil 2020 1 1 - NDAstro.days_from_civil 1990 1 1 = 10957 ∧
    NDAstro.find_running_dasha ((NDAstro.days_from_civil 1990 1 1 : ℤ) : ℚ)
        ((NDAstro.days_from_civil 2020 1 1 : ℤ) : ℚ) NDAstro.Dashas.vimshottari =
      Except.ok NDAstro.Planets.sun ∧
    NDAstro.Planets.sun ≠ NDAstro.Planets.mercury := by
  refine ⟨by decide, ?_, by decide⟩
  have h : ⌊((NDAstro.days_from_civil 2020 1 1 : ℤ) : ℚ) -
      ((NDAstro.days_from_civil 1990 1 1 : ℤ) : ℚ)⌋ = 10957 := by
    rw [NDAstro.floor_intCast_sub]; decide
  rw [NDAstro.find_running_dasha, if_neg (by decide)]
  simp only [NDAstro.dasha_details] at h ⊢
  rw [h]
  norm_num [NDAstro.dashaWalk]

/-- C4: `find_running_dasha` is periodic in `now` with period
`cycleDays(s) = cycleYears(s) × 365` days: shifting `now` by any whole
number of cycles leaves the returned result unchanged, for every birth
instant, every `now ≥ birth`, and every registered system. -/
theorem c4_find_running_dasha_periodic (birth now : ℚ) (s : NDAstro.Dashas) (k : ℕ)
    (h : birth ≤ now) :
    NDAstro.find_running_dasha birth (now + (((k : ℤ) * NDAstro.cycleDays s : ℤ) : ℚ)) s =
      NDAstro.find_running_dasha birth now s := by
  have hfloor : ⌊now + (((k : ℤ) * NDAstro.cycleDays s : ℤ) : ℚ) - birth⌋
      = ⌊now - birth⌋ + (k : ℤ) * NDAstro.cycleDays s := by
    have harr : now + (((k : ℤ) * NDAstro.cycleDays s : ℤ) : ℚ) - birth
        = (now - birth) + (((k : ℤ) * NDAstro.cycleDays s : ℤ) : ℚ) := by ring
    rw [harr, Int.floor_add_int]
  simp only [NDAstro.find_running_dasha, NDAstro.cycleDays] at hfloor ⊢
  rw [hfloor, Int.add_mul_emod_self]

/-- C4 witness: periodicity instantiated at birth = now = 0, k = 1,
Vimshottari. -/
theorem c4_find_running_dasha_periodic_witness :
    (0 : ℚ) ≤ 0 ∧
    NDAstro.find_running_dasha 0 (0 + (((1 : ℤ) * NDAstro.cycleDays .vimshottari : ℤ) : ℚ))
        .vimshottari =
      NDAstro.find_running_dasha 0 0 .vimshottari :=
  ⟨le_refl 0, c4_find_running_dasha_periodic 0 0 .vimshottari 1 (le_refl 0)⟩

/-- C8 counterexample: with `now` 10957 days before `birth`,
`find_running_dasha` raises nothing at all — the negative elapsed days wrap
through Python's floor-mod ((−10957) mod 43800 = 32843) and the walk returns
Saturn.  No `DomainError` exists anywhere in the repository. -/
theorem c8_negative_elapsed_counterexample :
    NDAstro.find_running_dasha 10957 0 NDAstro.Dashas.vimshottari =
      Except.ok NDAstro.Planets.saturn := by
  rw [NDAstro.find_running_dasha, if_neg (by decide)]
  have h : ⌊(0 : ℚ) - 10957⌋ = -10957 := by norm_num
  simp only [NDAstro.dasha_details] at h ⊢
  rw [h]
  norm_num [NDAstro.dashaWalk]

/-- C8 (amended): for `now` earlier than `birth`, `find_running_dasha` does
not fail for any registered system: the negative elapsed-day count is
wrapped into [0, cycleDays) by the floor-mod and a planet is returned. -/
theorem c8_negative_elapsed_returns_planet (birth now : ℚ) (s : NDAstro.Dashas)
    (h : now < birth) :
    ∃ p, NDAstro.find_running_dasha birth now s = Except.ok p := by
  have hcyc : (0 : ℤ) < (NDAstro.dasha_details s).cycle_years * 365 := by
    cases s <;> decide
  have hsum : ((NDAstro.dasha_details s).planets_period.map (fun x => x.2 * 365)).sum
      = (NDAstro.dasha_details s).cycle_years * 365 := by
    cases s <;> decide
  have hne : ¬ (NDAstro.dasha_details s).planets_period = [] := by
    cases s <;> decide
  rw [NDAstro.find_running_dasha, if_neg hne]
  refine NDAstro.dashaWalk_ok _ 0 _ ?_ ?_
  · exact Int.emod_nonneg _ (by omega)
  · rw [hsum, zero_add]
    exact Int.emod_lt_of_pos _ hcyc

/-- C8 witness: the amended statement at birth = 1, now = 0, Vimshottari. -/
theorem c8_negative_elapsed_witness :
    (0 : ℚ) < 1 ∧
    ∃ p, NDAstro.find_running_dasha 1 0 NDAstro.Dashas.vimshottari = Except.ok p :=
  ⟨by norm_num, c8_negative_elapsed_returns_planet 1 0 NDAstro.Dashas.vimshottari (by norm_num)⟩

/-- C7 counterexample: at 13.3333° — strictly below the 13°20′ (= 360/27°)
nakshatra boundary — the code returns (nakshatra 1, pada 4), not the
(nakshatra 2, pada 1) the claim asserts. -/
theorem c7_nakshatra_boundary_counterexample :
    NDAstro.get_nakshatra_and_pada (133333/10000) = some (1, 4) ∧
    ((1, 4) : ℤ × ℤ) ≠ (2, 1) := by
  refine ⟨?_, by decide⟩
  simp only [NDAstro.get_nakshatra_and_pada, NDAstro.natch_ofInt]
  rw [show (133333/10000 : ℚ) * 60 / (360 / 27 * 60) = 399999/400000 by norm_num]
  rw [if_neg (by norm_num : ¬ (399999/400000 : ℚ) = 0)]
  rw [show ⌈(399999/400000 : ℚ)⌉ = 1 by rw [Int.ceil_eq_iff] <;> norm_num]
  rw [show ⌊(399999/400000 : ℚ)⌋ = 0 by norm_num]
  norm_num

/-- C7 (amended): for every sidereal longitude L in [0, 360), the code's
nakshatra/pada agree with the spec's formula (ceil of arcminutes over
arcminutes-per-nakshatra, 0 mapped to index 1; pada the quartile of the
fractional position); the boundary examples are 0° → (1, 1),
13.3333° → (nakshatra 1, pada 4) — 13.3333° lies just below the 13°20′
boundary — and 359.9999° → (27, 4). -/
theorem c7_nakshatra_pada_amended :
    (∀ L : ℚ, 0 ≤ L → L < 360 →
       NDAstro.get_nakshatra_and_pada L =
         some (NDAstro.specNakshatraIndex L, NDAstro.specPada L)) ∧
    NDAstro.get_nakshatra_and_pada 0 = some (1, 1) ∧
    NDAstro.get_nakshatra_and_pada (133333/10000) = some (1, 4) ∧
    NDAstro.get_nakshatra_and_pada (3599999/10000) = some (27, 4) := by
  refine ⟨NDAstro.get_nakshatra_and_pada_eq_spec, ?_, ?_, ?_⟩
  · simp only [NDAstro.get_nakshatra_and_pada, NDAstro.natch_ofInt]
    rw [show (0 : ℚ) * 60 / (360 / 27 * 60) = 0 by norm_num]
    rw [if_pos rfl, show ⌈(0 : ℚ) + 1⌉ = 1 by rw [Int.ceil_eq_iff] <;> norm_num]
    norm_num
  · simp only [NDAstro.get_nakshatra_and_pada, NDAstro.natch_ofInt]
    rw [show (133333/10000 : ℚ) * 60 / (360 / 27 * 60) = 399999/400000 by norm_num]
    rw [if_neg (by norm_num : ¬ (399999/400000 : ℚ) = 0)]
    rw [show ⌈(399999/400000 : ℚ)⌉ = 1 by rw [Int.ceil_eq_iff] <;> norm_num]
    rw [show ⌊(399999/400000 : ℚ)⌋ = 0 by norm_num]
    norm_num
  · simp only [NDAstro.get_nakshatra_and_pada, NDAstro.natch_ofInt]
    rw [show (3599999/10000 : ℚ) * 60 / (360 / 27 * 60) = 10799997/400000 by norm_num]
    rw [if_neg (by norm_num : ¬ (10799997/400000 : ℚ) = 0)]
    rw [show ⌈(10799997/400000 : ℚ)⌉ = 27 by rw [Int.ceil_eq_iff] <;> norm_num]
    rw [show ⌊(10799997/400000 : ℚ)⌋ = 26 by norm_num]
    norm_num

/-- C7 witness: the universal part of the amended claim instantiated at
L = 5°. -/
theorem c7_nakshatra_pada_witness :
    NDAstro.get_nakshatra_and_pada 5 =
      some (NDAstro.specNakshatraIndex 5, NDAstro.specPada 5) :=
  c7_nakshatra_pada_amended.1 5 (by norm_num) (by norm_num)

/-- C6: at the exact segment boundaries the transform does not satisfy
rasi = ⌊L/30⌋ + 1: at L = 0 it computes rasi index 0 and `Rasis(0)` raises
`ValueError` (modelled as `none`), contradicting "all outputs land in their
valid ranges without raising"; at L = 30 it assigns rasi 1 where the claim's
formula gives ⌊30/30⌋ + 1 = 2. -/
theorem c6_segment_boundary_eval :
    NDAstro.enrich_planet 1 0 0 = none ∧
    (NDAstro.enrich_planet 1 30 0).map NDAstro.EnrichedPos.rasi_occupied = some 1 ∧
    (⌊(30 : ℚ) / 30⌋ + 1 : ℤ) = 2 ∧ (1 : ℤ) ≠ 2 := by
  refine ⟨?_, ?_, by norm_num, by decide⟩
  · have hnd : NDAstro.normalize_degree (0 - 0 : ℚ) = 0 := by
      rw [NDAstro.normalize_degree_small (by norm_num) (by norm_num)]; norm_num
    simp only [NDAstro.enrich_planet, hnd]
    rw [show ⌊(0 : ℚ) / 30⌋ = 0 by norm_num]
    rw [if_pos (by norm_num : (0 : ℚ) - 30 * ((0 : ℤ) : ℚ) = 0)]
    rw [NDAstro.normalize_rasi_house_of_le (by norm_num) (by norm_num)]
    simp [NDAstro.rasis_ofInt]
  · have hnd : NDAstro.normalize_degree (30 - 0 : ℚ) = 30 := by
      rw [NDAstro.normalize_degree_small (by norm_num) (by norm_num)]; norm_num
    simp only [NDAstro.enrich_planet, hnd]
    rw [show ⌊(30 : ℚ) / 30⌋ = 1 by norm_num]
    rw [if_pos (by norm_num : (30 : ℚ) - 30 * ((1 : ℤ) : ℚ) = 0)]
    rw [NDAstro.normalize_rasi_house_of_le (by norm_num) (by norm_num)]
    rw [if_neg (by norm_num : ¬ (1 : ℤ) = 0)]
    rw [NDAstro.get_nakshatra_and_pada_eq_spec 30 (by norm_num) (by norm_num)]
    simp [NDAstro.rasis_ofInt, NDAstro.houses_ofInt]

/-- C1: the code's house assignment ignores the ascendant's rasi.  With
ayanamsa 0, a tropical ascendant of 35° (ascendant rasi 2, ascendant house
1) and a planet at tropical longitude 5° (rasi 1), the code posits the
planet in house 2, while the claimed formula ((rasi − ascendantRasi) mod 12)
+ 1 = ((1 − 2) mod 12) + 1 gives house 12. -/
theorem c1_house_ignores_ascendant_eval :
    (NDAstro.get_sidereal_ascendant_position 35 0).map NDAstro.AscPos.rasi_occupied =
      some 2 ∧
    (NDAstro.get_sidereal_ascendant_position 35 0).map NDAstro.AscPos.house_posited_at =
      some 1 ∧
    (NDAstro.enrich_planet 1 5 0).map NDAstro.EnrichedPos.house_posited_at = some 2 ∧
    ((1 - 2 : ℤ) % 12 + 1 : ℤ) = 12 ∧ ((2 : ℤ) ≠ 12) := by
  have hasc : NDAstro.get_sidereal_ascendant_position 35 0 =
      some ⟨2, 1, 35 - 2999972222 / 100000000 * ((1 : ℤ) : ℚ),
        NDAstro.specNakshatraIndex 35, NDAstro.specPada 35, true, false⟩ := by
    have hnd : NDAstro.normalize_degree (35 - 0 : ℚ) = 35 := by
      rw [NDAstro.normalize_degree_small (by norm_num) (by norm_num)]; norm_num
    simp only [NDAstro.get_sidereal_ascendant_position, hnd]
    rw [show ⌊(35 : ℚ) / (2999972222 / 100000000)⌋ = 1 by norm_num]
    rw [if_neg (by norm_num : ¬ ((35 : ℚ) - 2999972222 / 100000000 * ((1 : ℤ) : ℚ) = 0))]
    rw [NDAstro.normalize_rasi_house_of_le (by norm_num) (by norm_num)]
    rw [NDAstro.get_nakshatra_and_pada_eq_spec 35 (by norm_num) (by norm_num)]
    simp [NDAstro.rasis_ofInt]
  have hpl : (NDAstro.enrich_planet 1 5 0).map NDAstro.EnrichedPos.house_posited_at =
      some 2 := by
    have hnd : NDAstro.normalize_degree (5 - 0 : ℚ) = 5 := by
      rw [NDAstro.normalize_degree_small (by norm_num) (by norm_num)]; norm_num
    simp only [NDAstro.enrich_planet, hnd]
    rw [show ⌊(5 : ℚ) / 30⌋ = 0 by norm_num]
    rw [if_neg (by norm_num : ¬ ((5 : ℚ) - 30 * ((0 : ℤ) : ℚ) = 0))]
    rw [if_pos (rfl : (0 : ℤ) = 0)]
    rw [NDAstro.normalize_rasi_house_of_le (by norm_num) (by norm_num)]
    rw [NDAstro.get_nakshatra_and_pada_eq_spec 5 (by norm_num) (by norm_num)]
    simp [NDAstro.rasis_ofInt, NDAstro.houses_ofInt]
    rw [NDAstro.normalize_rasi_house_of_le (by norm_num) (by norm_num)]
  exact ⟨by rw [hasc]; rfl, by rw [hasc]; rfl, hpl, by decide, by decide⟩

/-- C2 (amended): for a searchable planet (not in the short-circuit list)
and an instant X strictly inside the search window that lies in the
interior of a partition interval *other than the leading one* — some
direction-change event `(tl, v)` precedes X, every earlier event is before
X, every later event is after X, and `v` is the value of the two-sample
test on that interval — the interval-membership answer of
`is_planet_in_retrograde` equals the direct two-sample test
`longitude(X) < longitude(X − 1 day)`.  (The original claim's coverage of
the leading interval fails: see the counterexample.) -/
theorem c2_retrograde_interior_agreement
    (lon : ℚ → ℚ) (planet_name : String) (X tl : ℚ) (v : Bool)
    (l1 l2 : List (ℚ × Bool))
    (hname : planet_name ∉ ["sun", "moon", "ascendant", "empty"])
    (hl1 : ∀ te ∈ l1, te.1 < X) (htl : tl < X) (hl2 : ∀ te ∈ l2, X < te.1)
    (hv : v = NDAstro.retrograde_function lon X) :
    NDAstro.is_planet_in_retrograde X planet_name (l1 ++ (tl, v) :: l2) =
      NDAstro.retrograde_function lon X := by
  rw [NDAstro.is_planet_in_retrograde, if_pos hname, NDAstro.find_retrograde_periods, ← hv]
  exact NDAstro.rpGo_segment X (X + 365) tl v l2 htl (by linarith) hl2 l1 none
    (fun s hs => by cases hs) hl1

/-- C2 counterexample: the original claim fails in the interior of the
leading partition interval.  With the signal `lon_cx` (retrograde exactly
before t = 3), the window 2 ± 365 opens mid-retrograde: `find_discrete`
returns the single change event (3, false), the leading interval
(window start, 3) is retrograde and contains the interior, non-boundary
centre X = 2 — yet the loop of `find_retrograde_periods` (which starts with
`in_retrograde = False`) records no period, so `is_planet_in_retrograde`
answers false while the direct two-sample test at X is true. -/
theorem c2_leading_interval_counterexample :
    NDAstro.retrograde_function NDAstro.lon_cx (2 - 365) = true ∧
    NDAstro.retrograde_function NDAstro.lon_cx 2 = true ∧
    NDAstro.retrograde_function NDAstro.lon_cx 3 = false ∧
    NDAstro.is_planet_in_retrograde 2 "mars barycenter" [(3, false)] = false ∧
    NDAstro.is_planet_in_retrograde 2 "mars barycenter" [(3, false)] ≠
      NDAstro.retrograde_function NDAstro.lon_cx 2 := by
  have h2 : NDAstro.retrograde_function NDAstro.lon_cx 2 = true := by
    norm_num [NDAstro.retrograde_function, NDAstro.lon_cx]
  have h4 : NDAstro.is_planet_in_retrograde 2 "mars barycenter" [(3, false)] = false := by
    rw [NDAstro.is_planet_in_retrograde, if_pos (by decide)]
    simp [NDAstro.find_retrograde_periods, NDAstro.rpGo, NDAstro.inAnyPeriod]
  refine ⟨?_, h2, ?_, h4, ?_⟩
  · norm_num [NDAstro.retrograde_function, NDAstro.lon_cx]
  · norm_num [NDAstro.retrograde_function, NDAstro.lon_cx]
  · rw [h2, h4]
    decide

/-- C2 witness: Mars, window centre X = 2, one retrograde onset at t = 1 and
offset at t = 3, signal `lon t = −t` (decreasing, so the two-sample test at
X is true). -/
theorem c2_retrograde_interior_witness :
    NDAstro.is_planet_in_retrograde 2 "mars barycenter" ([] ++ (1, true) :: [(3, false)]) =
      NDAstro.retrograde_function (fun t => -t) 2 :=
  c2_retrograde_interior_agreement (fun t => -t) "mars barycenter" 2 1 true [] [(3, false)]
    (by decide)
    (by intro te h; cases h)
    (by norm_num)
    (by intro te h; simp only [List.mem_singleton] at h; rw [h]; norm_num)
    (by rw [NDAstro.retrograde_function]; rw [eq_comm, decide_eq_true_eq]; norm_num)

/-- C9 counterexample: invoked at latitude exactly +90° (any instant,
longitude 0, a concrete trigonometric oracle), the ascendant calculation
returns an `Except.ok` value — it raises nothing, so it does not fail with
a `DomainError`. -/
theorem c9_latitude_pole_counterexample :
    ∃ val, NDAstro.get_tropical_ascendant_position NDAstro.opsZero 0 0 90 0 =
      Except.ok val :=
  ⟨_, rfl⟩

/-- C9 (amended): the ascendant calculation performs no latitude guard at
all: for every oracle, instant, longitude and latitude — ±90° included — it
evaluates the tangent term and returns the normalized `atan2` angle as
`Except.ok`; no `DomainError` is ever raised. -/
theorem c9_no_latitude_guard (ops : NDAstro.FloatOps) (gmst oe_arcsec lat lon : ℚ) :
    ∃ val, NDAstro.get_tropical_ascendant_position ops gmst oe_arcsec lat lon =
      Except.ok val :=
  ⟨_, rfl⟩

/-- C10: for every query instant and every `find_discrete` oracle, the
enrichment loop forces `retrograde = True` for Rahu and Kethu without
consulting the interval search; Sun and Moon get `False` through the
short-circuit of `is_planet_in_retrograde`, as do the ascendant code and
the empty placeholder code; the ascendant's own `PlanetDetail` always
carries the dataclass default `retrograde = False`; and exactly the
remaining planets (Mars, Mercury, Jupiter, Venus, Saturn) delegate to the
interval-membership search. -/
theorem c10_retrograde_flag_policy (X : ℚ) (events : List (ℚ × Bool)) :
    NDAstro.retro_flag NDAstro.Planets.rahu X events = true ∧
    NDAstro.retro_flag NDAstro.Planets.kethu X events = true ∧
    NDAstro.retro_flag NDAstro.Planets.sun X events = false ∧
    NDAstro.retro_flag NDAstro.Planets.moon X events = false ∧
    NDAstro.is_planet_in_retrograde X NDAstro.Planets.ascendant.code events = false ∧
    NDAstro.is_planet_in_retrograde X NDAstro.Planets.empty.code events = false ∧
    (∀ tropical_ascendant ayanamsa : ℚ,
      ((NDAstro.get_sidereal_ascendant_position tropical_ascendant ayanamsa).all
        fun p => !p.retrograde) = true) ∧
    NDAstro.retro_flag NDAstro.Planets.mars X events =
      NDAstro.inAnyPeriod (NDAstro.find_retrograde_periods (X + 365) events) X ∧
    NDAstro.retro_flag NDAstro.Planets.mercury X events =
      NDAstro.inAnyPeriod (NDAstro.find_retrograde_periods (X + 365) events) X ∧
    NDAstro.retro_flag NDAstro.Planets.jupiter X events =
      NDAstro.inAnyPeriod (NDAstro.find_retrograde_periods (X + 365) events) X ∧
    NDAstro.retro_flag NDAstro.Planets.venus X events =
      NDAstro.inAnyPeriod (NDAstro.find_retrograde_periods (X + 365) events) X ∧
    NDAstro.retro_flag NDAstro.Planets.saturn X events =
      NDAstro.inAnyPeriod (NDAstro.find_retrograde_periods (X + 365) events) X := by
  refine ⟨rfl, rfl, rfl, rfl, rfl, rfl, ?_, rfl, rfl, rfl, rfl, rfl⟩
  intro tropical_ascendant ayanamsa
  simp only [NDAstro.get_sidereal_ascendant_position]
  cases hr : NDAstro.rasis_ofInt (NDAstro.normalize_rasi_house
      (if NDAstro.normalize_degree (tropical_ascendant - ayanamsa) -
            2999972222 / 100000000 *
              (⌊NDAstro.normalize_degree (tropical_ascendant - ayanamsa) /
                  (2999972222 / 100000000)⌋ : ℚ) = 0
       then ⌊NDAstro.normalize_degree (tropical_ascendant - ayanamsa) /
                (2999972222 / 100000000)⌋
       else ⌊NDAstro.normalize_degree (tropical_ascendant - ayanamsa) /
                (2999972222 / 100000000)⌋ + 1)) with
  | none => simp [hr]
  | some r =>
    cases hnp : NDAstro.get_nakshatra_and_pada
        (NDAstro.normalize_degree (tropical_ascendant - ayanamsa)) with
    | none => simp [hr, hnp]
    | some np => simp [hr, hnp]
